import Mathlib

/-!
Shallow embedding of the payment-authorization verification and
gasless-settlement facilitator core of the CryptoMcD repository.

The embedding follows the TypeScript sources:
- `packages/facilitator/src/eip3009/verify.ts` (verifyPayment, isNonceUsed,
  getTokenDomain),
- `packages/facilitator/src/eip3009/transfer.ts`
  (executeTransferWithAuthorization, executePasskeyTransfer),
- `packages/facilitator/src/routes/settle.ts` (the POST /settle handler),
- `packages/facilitator/src/signers/gcp-kms-secp256k1.ts` and
  `gcp-kms-p256.ts` (parseDerSignature, recoverV, signHash),
- `packages/shared/src/constants` (SUPPORTED_NETWORKS, SUPPORTED_TOKENS,
  getTokenAddress, ZERO_ADDRESS).

Remote interactions (RPC reads, KMS calls, EIP-712 recovery) are modelled as
explicit oracle functions returning `Except`, mirroring promise rejection in
the source; machine integers (`bigint`, `number`) are modelled as `Nat`,
byte arrays as `List Nat` of byte values, and console output, where a claim
depends on it, as an explicit writer component.
-/

namespace CryptoPay

/-- JS `String.prototype.toLowerCase` as used by `verify.ts` for address
comparison: lower-case every character (expressed over the character list
so that it evaluates by kernel reduction). -/
def toLowerCase (s : String) : String :=
  String.mk (s.data.map Char.toLower)

/-- JS `String.prototype.padStart(len, c)`. -/
def padStart (c : Char) (len : Nat) (s : String) : String :=
  String.mk (List.replicate (len - s.length) c) ++ s

/-- JS `Number.prototype.toString(16)` for a nonnegative integer
(lower-case hex digits, no leading zeros). -/
def toHexRepr (n : Nat) : String :=
  (Nat.toDigits 16 n).asString

/-- JS `String.prototype.includes(needle)`: substring test. -/
def containsSubstr (needle haystack : String) : Bool :=
  (List.range (haystack.length + 1)).any
    (fun i => needle.toList.isPrefixOf (haystack.toList.drop i))

/-- `ZERO_ADDRESS` from `packages/shared/src/constants/chains.ts`. -/
def ZERO_ADDRESS : String :=
  "0x0000000000000000000000000000000000000000"

/-- `SUPPORTED_NETWORKS[network].chainId` from
`packages/shared/src/constants/chains.ts`. Inputs are confined to the eight
listed network ids by the TS `NetworkId` type; any other string maps to 0. -/
def networkChainId (network : String) : Nat :=
  if network = "ethereum" then 1
  else if network = "sepolia" then 11155111
  else if network = "base" then 8453
  else if network = "base-sepolia" then 84532
  else if network = "polygon" then 137
  else if network = "polygon-amoy" then 80002
  else if network = "avalanche" then 43114
  else if network = "avalanche-fuji" then 43113
  else 0

/-- `getTokenAddress` over the `SUPPORTED_TOKENS` table (USDC and JPYC).
Inputs are confined to the listed token symbols and network ids by the TS
types; out-of-table lookups map to the zero address. -/
def getTokenAddress (token network : String) : String :=
  if token = "USDC" then
    if network = "ethereum" then "0xA0b86991c6218b36c1d19D4a2e9Eb0cE3606eB48"
    else if network = "sepolia" then "0x1c7D4B196Cb0C7B01d743Fbc6116a902379C7238"
    else if network = "base" then "0x833589fCD6eDb6E08f4c7C32D4f71b54bdA02913"
    else if network = "base-sepolia" then "0x036CbD53842c5426634e7929541eC2318f3dCF7e"
    else if network = "polygon" then "0x3c499c542cEF5E3811e1192ce70d8cC03d5c3359"
    else if network = "polygon-amoy" then "0x41E94Eb019C0762f9Bfcf9Fb1E58725BfB0e7582"
    else if network = "avalanche" then "0xB97EF9Ef8734C71904D8002F8b6Bc66Dd9c48a6E"
    else if network = "avalanche-fuji" then "0x5425890298aed601595a70AB815c96711a31Bc65"
    else ZERO_ADDRESS
  else if token = "JPYC" then
    if network = "ethereum" then "0x2370f9d504c7a6E775bf6E14B3F12846b594cD53"
    else if network = "polygon" then "0x431D5dfF03120AFA4bDf332c61A6e1766eF37BDB"
    else if network = "polygon-amoy" then "0xAc5e2848c22052D5C674892562Fd900e512D5428"
    else if network = "avalanche" then "0x431D5dfF03120AFA4bDf332c61A6e1766eF37BDB"
    else ZERO_ADDRESS
  else ZERO_ADDRESS

/-- `PaymentRequirement` from `packages/shared/src/types` (the fields the
facilitator core reads; timestamps are Unix seconds). -/
structure PaymentRequirement where
  scheme : String
  network : String
  token : String
  amount : String
  recipient : String
  paymentId : String
  expiresAt : Nat
deriving DecidableEq

/-- `SignedEIP3009Authorization`: an EIP-3009 authorization plus its ECDSA
signature components. The source field `from` is a Lean keyword and is
rendered `fromAddr`. -/
structure SignedEIP3009Authorization where
  fromAddr : String
  toAddr : String
  value : Nat
  validAfter : Nat
  validBefore : Nat
  nonce : String
  v : Nat
  r : String
  s : String
deriving DecidableEq

/-- `PaymentPayload` from `packages/shared/src/types`; `isPasskeyPayment`
models the discriminator field tested by the settle route
(`'isPasskeyPayment' in payload && payload.isPasskeyPayment === true`). -/
structure PaymentPayload where
  requirement : PaymentRequirement
  authorization : SignedEIP3009Authorization
  payer : String
  createdAt : Nat
  isPasskeyPayment : Bool
deriving DecidableEq

/-- `VerifyResult` from `eip3009/verify.ts`. -/
structure VerifyResult where
  valid : Bool
  error : Option String
deriving DecidableEq

/-- `EIP3009Domain`: the EIP-712 domain assembled by `getTokenDomain`. -/
structure EIP3009Domain where
  name : String
  version : String
  chainId : Nat
  verifyingContract : String
deriving DecidableEq

/-- The EIP-712 message object passed to `verifyTypedData` in step 6 of
`verifyPayment` (the authorization minus its signature components). -/
structure TransferWithAuthorizationMessage where
  fromAddr : String
  toAddr : String
  value : Nat
  validAfter : Nat
  validBefore : Nat
  nonce : String
deriving DecidableEq

/-- Read-only chain/crypto oracles consumed by the verifier. Each models a
remote call that can reject (`Except.error`):
`nonceQuery tokenAddress authorizer nonce network` is the
`authorizationState` contract read; `nameQuery` / `versionQuery` are the
`name()` / `version()` contract reads; `verifyTypedData address domain
message signature` is viem EIP-712 verification. -/
structure ChainEnv where
  nonceQuery : String → String → String → String → Except Unit Bool
  nameQuery : String → String → Except Unit String
  versionQuery : String → String → Except Unit String
  verifyTypedData : String → EIP3009Domain → TransferWithAuthorizationMessage →
    String → Except Unit Bool

/-- `isNonceUsed` from `eip3009/verify.ts`, as a writer over console output:
the result is paired with the list of log lines the function emits. The
`catch` branch returns `false` ("assume nonce is not used") and contains no
console statement, so both branches emit no output. -/
def isNonceUsedLog (query : Except Unit Bool) : Bool × List String :=
  match query with
  | .ok used => (used, [])
  | .error _ => (false, [])

/-- The boolean result of `isNonceUsed`. -/
def isNonceUsed (query : Except Unit Bool) : Bool :=
  (isNonceUsedLog query).1

/-- `getTokenDomain` from `eip3009/verify.ts`: reads `name()` (a rejection
propagates as the `Failed to read token contract` throw) and `version()`
(a rejection is caught and defaults to `"2"`), and assembles the EIP-712
domain with the network's chain id and the token contract address. -/
def getTokenDomain (env : ChainEnv) (tokenAddress network : String) :
    Except Unit EIP3009Domain :=
  match env.nameQuery tokenAddress network with
  | .error e => .error e
  | .ok name =>
      .ok ⟨name,
           (match env.versionQuery tokenAddress network with
            | .ok version => version
            | .error _ => "2"),
           networkChainId network,
           tokenAddress⟩

/-- The message object built in step 6 of `verifyPayment`. -/
def messageOf (authorization : SignedEIP3009Authorization) :
    TransferWithAuthorizationMessage :=
  ⟨authorization.fromAddr, authorization.toAddr, authorization.value,
   authorization.validAfter, authorization.validBefore, authorization.nonce⟩

/-- The compact signature hex string built in step 6 of `verifyPayment`:
`0x` ++ r without its `0x` ++ s without its `0x` ++ v as two hex digits. -/
def signatureHex (authorization : SignedEIP3009Authorization) : String :=
  "0x" ++ (authorization.r.drop 2) ++ (authorization.s.drop 2) ++
    padStart '0' 2 (toHexRepr authorization.v)

/-- Step 6 of `verifyPayment`: build the domain and call `verifyTypedData`;
any rejection inside the `try` block yields `Signature verification failed`,
a clean `false` yields `Invalid signature`. -/
def verifySignatureStep (env : ChainEnv) (tokenAddress network : String)
    (authorization : SignedEIP3009Authorization) : VerifyResult :=
  match getTokenDomain env tokenAddress network with
  | .error _ => ⟨false, some "Signature verification failed"⟩
  | .ok domain =>
      match env.verifyTypedData authorization.fromAddr domain
          (messageOf authorization) (signatureHex authorization) with
      | .error _ => ⟨false, some "Signature verification failed"⟩
      | .ok true => ⟨true, none⟩
      | .ok false => ⟨false, some "Invalid signature"⟩

/-- `verifyPayment` from `eip3009/verify.ts`: the six ordered, short-circuit
checks. `now` is `Math.floor(Date.now() / 1000)` at the verification
instant. The function only reads oracles and returns a result; it performs
no state-changing effect. -/
def verifyPayment (env : ChainEnv) (now : Nat) (payload : PaymentPayload) :
    VerifyResult :=
  let requirement := payload.requirement
  let authorization := payload.authorization
  let payer := payload.payer
  if now > requirement.expiresAt then
    ⟨false, some "Payment request expired"⟩
  else
    let tokenAddress := getTokenAddress requirement.token requirement.network
    if tokenAddress = ZERO_ADDRESS then
      ⟨false, some ("Token " ++ requirement.token ++ " not available on " ++
        requirement.network)⟩
    else if toLowerCase authorization.fromAddr ≠ toLowerCase payer then
      ⟨false, some "Authorization from address mismatch"⟩
    else if toLowerCase authorization.toAddr ≠
        toLowerCase requirement.recipient then
      ⟨false, some "Authorization to address mismatch"⟩
    else if Nat.repr authorization.value ≠ requirement.amount then
      ⟨false, some "Authorization amount mismatch"⟩
    else if now < authorization.validAfter then
      ⟨false, some "Authorization not yet valid"⟩
    else if now > authorization.validBefore then
      ⟨false, some "Authorization expired"⟩
    else if isNonceUsed (env.nonceQuery tokenAddress authorization.fromAddr
        authorization.nonce requirement.network) then
      ⟨false, some "Authorization nonce already used"⟩
    else
      verifySignatureStep env tokenAddress requirement.network authorization

/-! ## Signature codec (`parseDerSignature` in both KMS signers) -/

/-- Big-endian byte-list value: `BigInt(toHex(bytes))` in the source. -/
def beNat (l : List Nat) : Nat :=
  l.foldl (fun acc b => acc * 256 + b) 0

/-- secp256k1 group order (from `gcp-kms-secp256k1.ts`). -/
def secp256k1Order : Nat :=
  0xFFFFFFFFFFFFFFFFFFFFFFFFFFFFFFFEBAAEDCE6AF48A03BBFD25E8CD0364141

/-- P-256 group order (from `gcp-kms-p256.ts`). -/
def p256Order : Nat :=
  0xFFFFFFFF00000000FFFFFFFFFFFFFFFFBCE6FAADA7179E84F3B9CAC2FC632551

/-- The integer-component post-processing shared by both parsers: drop one
leading zero byte when the component is longer than 32 bytes
(`r[0] === 0x00 && r.length > 32`). -/
def stripLeadingZero (l : List Nat) : List Nat :=
  if l.head? = some 0 ∧ 32 < l.length then l.tail else l

/-- Left-pad a component to 32 bytes (`padded.set(r, 32 - r.length)`). -/
def padTo32 (l : List Nat) : List Nat :=
  if l.length < 32 then List.replicate (32 - l.length) 0 ++ l else l

/-- Minimal big-endian base-256 digits of `n` (one `0x00` byte for 0):
the byte content of `n.toString(16)` after even-length padding. -/
def minimalBytes (n : Nat) : List Nat :=
  if _h : n < 256 then [n]
  else minimalBytes (n / 256) ++ [n % 256]
termination_by n
decreasing_by exact Nat.div_lt_self (by omega) (by omega)

/-- The 32-byte big-endian encoding produced by
`newS.toString(16).padStart(64, '0')` followed by `hexToBytes`, for values
below `2 ^ 256` (the only values the canonicalization branch can produce
from an in-range `s`). -/
def natToBytes32 (n : Nat) : List Nat :=
  padTo32 (minimalBytes n)

/-- `parseDerSignature` from `gcp-kms-secp256k1.ts` and `gcp-kms-p256.ts`
(the two bodies are identical up to the curve order constant, passed here
as `order`). Bytes are read with `List.get?`; a JS out-of-range read gives
`undefined`, which fails the `!== 0x30` / `!== 0x02` comparisons exactly as
`Option.getD`-free mismatch does here. A length byte read out of range
(JS `undefined`) makes the subsequent `slice` produce the empty list and
every later indexed read fail, which the `getD 0` rendering reproduces. -/
def parseDerSignature (order : Nat) (der : List Nat) :
    Except String (List Nat × List Nat) :=
  if der.get? 0 ≠ some 0x30 then
    .error "Invalid DER signature: expected SEQUENCE"
  -- offset 1 holds the total length byte, which is skipped unchecked
  else if der.get? 2 ≠ some 0x02 then
    .error "Invalid DER signature: expected INTEGER for r"
  else
    let rLength := (der.get? 3).getD 0
    let r := padTo32 (stripLeadingZero ((der.drop 4).take rLength))
    let offset := 4 + rLength
    if der.get? offset ≠ some 0x02 then
      .error "Invalid DER signature: expected INTEGER for s"
    else
      let sLength := (der.get? (offset + 1)).getD 0
      let s := padTo32 (stripLeadingZero ((der.drop (offset + 2)).take sLength))
      let halfOrder := order / 2
      let sValue := beNat s
      if sValue > halfOrder then .ok (r, natToBytes32 (order - sValue))
      else .ok (r, s)

/-- Minimal big-endian DER INTEGER content bytes for a nonnegative value:
the sign-magnitude rule prepends `0x00` when the high bit of the leading
byte is set. This is the wire format the KMS backend emits and the spec's
codec input. -/
def derInt (n : Nat) : List Nat :=
  let b := minimalBytes n
  if 128 ≤ b.headD 0 then 0 :: b else b

/-- A well-formed DER ECDSA signature for component values `r` and `s`:
`0x30 len 0x02 rlen r-bytes 0x02 slen s-bytes`. -/
def derSignature (r s : Nat) : List Nat :=
  let ri := derInt r
  let si := derInt s
  0x30 :: (ri.length + si.length + 4) :: 0x02 :: ri.length ::
    (ri ++ 0x02 :: si.length :: si)

/-! ## Native-curve signer recovery (`recoverV`, `signHash`) -/

/-- `comparePublicKeys` from `gcp-kms-secp256k1.ts`: length check plus
byte-wise comparison, i.e. list equality. -/
def comparePublicKeys (a b : List Nat) : Bool :=
  decide (a = b)

/-- `recoverV` from `gcp-kms-secp256k1.ts`: try the candidate recovery
values 27 then 28; for each, recover the public key from
(hash, r, s, v) — `recover r s v` models `recoverPublicKey` over the
ambient hash and may reject — and accept the first candidate whose
recovered key equals the cached KMS public key; a rejection during
recovery is caught and the loop continues; if neither candidate matches,
throw `Failed to recover v value`. -/
def recoverV (recover : List Nat → List Nat → Nat → Except Unit (List Nat))
    (r s publicKey : List Nat) : Except String Nat :=
  match recover r s 27 with
  | .ok recovered =>
      if comparePublicKeys recovered publicKey then .ok 27
      else
        match recover r s 28 with
        | .ok recovered2 =>
            if comparePublicKeys recovered2 publicKey then .ok 28
            else .error "Failed to recover v value"
        | .error _ => .error "Failed to recover v value"
  | .error _ =>
      match recover r s 28 with
      | .ok recovered =>
          if comparePublicKeys recovered publicKey then .ok 28
          else .error "Failed to recover v value"
      | .error _ => .error "Failed to recover v value"

/-- An Ethereum signature triple as serialized by `signHash`. -/
structure EthSignature where
  r : List Nat
  s : List Nat
  v : Nat
deriving DecidableEq

/-- `signHash` of the secp256k1 KMS signer, given the DER-encoded KMS
response `der` and the cached public key: parse and canonicalize the
signature, resolve the recovery value by trial, and serialize; a failure of
either step propagates as a thrown error. -/
def signHash (der : List Nat)
    (recover : List Nat → List Nat → Nat → Except Unit (List Nat))
    (publicKey : List Nat) : Except String EthSignature :=
  match parseDerSignature secp256k1Order der with
  | .error e => .error e
  | .ok (r, s) =>
      match recoverV recover r s publicKey with
      | .error e => .error e
      | .ok v => .ok ⟨r, s, v⟩

/-! ## Settlement executor (`eip3009/transfer.ts`) and settle route -/

/-- A contract call the executor can build and submit, with the account it
is sent from: either the EIP-3009 `transferWithAuthorization` call of the
primary path or the plain ERC-20 `transfer` of the passkey path. -/
inductive ChainCall where
  | transferWithAuthorization (tokenAddress account fromAddr toAddr : String)
      (value validAfter validBefore : Nat) (nonce : String) (v : Nat)
      (r s : String)
  | erc20Transfer (tokenAddress account toAddr : String) (value : Nat)
deriving DecidableEq

/-- Whether a call is the primary-path `transferWithAuthorization` call. -/
def ChainCall.isAuthTransfer : ChainCall → Bool
  | .transferWithAuthorization .. => true
  | .erc20Transfer .. => false

/-- Execution environment of the settlement executor. `signerIsLocal` is
`getSigner() instanceof LocalSigner`; `signerType` is `signer.type`;
`facilitatorAddress` is the wallet-client account. `simulate`, `write` and
`waitReceipt` model `simulateContract`, `writeContract` and
`waitForTransactionReceipt`; an `Except.error` carries the thrown error's
`message`; `waitReceipt` returns `false` for a receipt with
`status === 'reverted'`. -/
structure ExecEnv where
  signerIsLocal : Bool
  signerType : String
  facilitatorAddress : String
  simulate : ChainCall → Except String Unit
  write : ChainCall → Except String String
  waitReceipt : String → Except String Bool

/-- `TransferResult` from `eip3009/transfer.ts`. -/
structure TransferResult where
  success : Bool
  transactionHash : Option String
  error : Option String
deriving DecidableEq

/-- The catch-block error classifier of `executeTransferWithAuthorization`:
match coarse categories by substring of the error message, falling back to
the raw message. -/
def classifyError (errorMessage : String) : String :=
  if containsSubstr "insufficient funds" errorMessage then
    "Facilitator has insufficient gas funds"
  else if containsSubstr "nonce" errorMessage then
    "Authorization nonce already used"
  else if containsSubstr "balance" errorMessage then
    "Insufficient token balance"
  else errorMessage

/-- The catch-block error classifier of `executePasskeyTransfer` (note: no
`nonce` category, and a different token-balance message). -/
def classifyPasskeyError (errorMessage : String) : String :=
  if containsSubstr "insufficient funds" errorMessage then
    "Facilitator has insufficient gas funds"
  else if containsSubstr "balance" errorMessage then
    "Facilitator has insufficient token balance"
  else errorMessage

/-- The error thrown on the non-local branch of
`executeTransferWithAuthorization`. -/
def kmsNotImplementedMessage (signerType : String) : String :=
  "KMS signer transaction execution not yet implemented for " ++ signerType ++
    ". Please use a local private key signer for now."

/-- The `transferWithAuthorization` call built by the primary path. -/
def authTransferCall (env : ExecEnv) (payload : PaymentPayload) : ChainCall :=
  let requirement := payload.requirement
  let authorization := payload.authorization
  ChainCall.transferWithAuthorization
    (getTokenAddress requirement.token requirement.network)
    env.facilitatorAddress authorization.fromAddr authorization.toAddr
    authorization.value authorization.validAfter authorization.validBefore
    authorization.nonce authorization.v authorization.r authorization.s

/-- `executeTransferWithAuthorization` from `eip3009/transfer.ts`, paired
with the list of transactions actually submitted to the chain. On the
local-signer branch: simulate, submit, wait for one confirmation, and treat
a reverted receipt as failure; any thrown error (including the KMS
not-implemented throw of the non-local branch) is caught and classified by
`classifyError`. A transaction appears in the submission list exactly when
`writeContract` succeeded. -/
def executeTransferWithAuthorization (env : ExecEnv)
    (payload : PaymentPayload) : TransferResult × List ChainCall :=
  if env.signerIsLocal then
    match env.simulate (authTransferCall env payload) with
    | .error e => (⟨false, none, some (classifyError e)⟩, [])
    | .ok _ =>
        match env.write (authTransferCall env payload) with
        | .error e => (⟨false, none, some (classifyError e)⟩, [])
        | .ok hash =>
            match env.waitReceipt hash with
            | .error e => (⟨false, none, some (classifyError e)⟩,
                [authTransferCall env payload])
            | .ok false =>
                (⟨false, some hash, some "Transaction reverted"⟩,
                  [authTransferCall env payload])
            | .ok true => (⟨true, some hash, none⟩,
                [authTransferCall env payload])
  else
    (⟨false, none,
      some (classifyError (kmsNotImplementedMessage env.signerType))⟩, [])

/-- `BigInt(s)` for the decimal amount strings the passkey path converts
(JS throws on non-decimal input; the model is total over the characters). -/
def parseDecimal (s : String) : Nat :=
  s.data.foldl (fun acc c => acc * 10 + (c.toNat - 48)) 0

/-- The ERC-20 `transfer` call built by the passkey path: from the
facilitator's account, to the requirement's recipient, for
`BigInt(requirement.amount)` (`amount` is a decimal string). -/
def passkeyTransferCall (env : ExecEnv) (payload : PaymentPayload) :
    ChainCall :=
  let requirement := payload.requirement
  ChainCall.erc20Transfer
    (getTokenAddress requirement.token requirement.network)
    env.facilitatorAddress requirement.recipient
    (parseDecimal requirement.amount)

/-- The note logged by `executePasskeyTransfer` on success. -/
def passkeyLogNote : String :=
  "Facilitator-funded transfer (simulating Smart Account execution)"

/-- `executePasskeyTransfer` from `eip3009/transfer.ts`, paired with the
submitted transactions and the console log lines. The local-signer branch
submits a plain ERC-20 `transfer` from the facilitator's account and, on
success, logs `[Passkey] Transfer successful` with the facilitator-funded
note; a non-local signer throws, caught and classified by
`classifyPasskeyError`. -/
def executePasskeyTransfer (env : ExecEnv) (payload : PaymentPayload) :
    TransferResult × List ChainCall × List String :=
  if env.signerIsLocal then
    match env.simulate (passkeyTransferCall env payload) with
    | .error e => (⟨false, none, some (classifyPasskeyError e)⟩, [], [])
    | .ok _ =>
        match env.write (passkeyTransferCall env payload) with
        | .error e => (⟨false, none, some (classifyPasskeyError e)⟩, [], [])
        | .ok hash =>
            match env.waitReceipt hash with
            | .error e =>
                (⟨false, none, some (classifyPasskeyError e)⟩,
                  [passkeyTransferCall env payload], [])
            | .ok false =>
                (⟨false, some hash, some "Transaction reverted"⟩,
                  [passkeyTransferCall env payload], [])
            | .ok true =>
                (⟨true, some hash, none⟩, [passkeyTransferCall env payload],
                 ["[Passkey] Transfer successful: " ++ passkeyLogNote])
  else
    (⟨false, none,
      some (classifyPasskeyError
        "Only local signer is supported for passkey transfers")⟩, [], [])

/-- `SettleResponse` from the settle route. -/
structure SettleResponse where
  success : Bool
  transactionHash : Option String
  error : Option String
deriving DecidableEq

/-- The POST `/settle` handler from `routes/settle.ts`, paired with the
submitted transactions: a payload with the passkey discriminator goes to
`executePasskeyTransfer`; any other payload is first verified by
`verifyPayment` and executed by `executeTransferWithAuthorization` only if
verification returned `valid: true`. -/
def settleHandler (chain : ChainEnv) (env : ExecEnv) (now : Nat)
    (payload : PaymentPayload) : SettleResponse × List ChainCall :=
  if payload.isPasskeyPayment then
    let result := executePasskeyTransfer env payload
    if result.1.success then (⟨true, result.1.transactionHash, none⟩, result.2.1)
    else (⟨false, none, result.1.error⟩, result.2.1)
  else
    let verifyResult := verifyPayment chain now payload
    if verifyResult.valid then
      let result := executeTransferWithAuthorization env payload
      if result.1.success then (⟨true, result.1.transactionHash, none⟩, result.2)
      else (⟨false, none, result.1.error⟩, result.2)
    else
      (⟨false, none, verifyResult.error⟩, [])

/-! ## Pass predicates for the six verifier checks -/

/-- The token contract address the verifier resolves for a payload. -/
def tokenAddressOf (payload : PaymentPayload) : String :=
  getTokenAddress payload.requirement.token payload.requirement.network

/-- Check 1 passes: the requirement has not expired. -/
def passExpiry (now : Nat) (payload : PaymentPayload) : Prop :=
  now ≤ payload.requirement.expiresAt

/-- Check 2 passes: the token resolves to a non-zero address. -/
def passTokenAvailable (payload : PaymentPayload) : Prop :=
  tokenAddressOf payload ≠ ZERO_ADDRESS

/-- Check 3 passes: payer, recipient and amount all match. -/
def passFieldMatch (payload : PaymentPayload) : Prop :=
  toLowerCase payload.authorization.fromAddr = toLowerCase payload.payer ∧
  toLowerCase payload.authorization.toAddr =
    toLowerCase payload.requirement.recipient ∧
  Nat.repr payload.authorization.value = payload.requirement.amount

/-- Check 4 passes: `validAfter ≤ now ≤ validBefore`. -/
def passWindow (now : Nat) (payload : PaymentPayload) : Prop :=
  payload.authorization.validAfter ≤ now ∧
  now ≤ payload.authorization.validBefore

/-- Check 5 passes: the on-chain nonce query does not report the nonce as
used (a failed query counts as not used). -/
def passNonceFresh (env : ChainEnv) (payload : PaymentPayload) : Prop :=
  isNonceUsed (env.nonceQuery (tokenAddressOf payload)
    payload.authorization.fromAddr payload.authorization.nonce
    payload.requirement.network) = false

/-- Check 6 passes: the domain reads succeed and `verifyTypedData` accepts
the signature for the claimed payer under the assembled domain. -/
def passSignature (env : ChainEnv) (tokenAddress network : String)
    (authorization : SignedEIP3009Authorization) : Prop :=
  ∃ domain, getTokenDomain env tokenAddress network = .ok domain ∧
    env.verifyTypedData authorization.fromAddr domain
      (messageOf authorization) (signatureHex authorization) = .ok true

/-- Check 6 for a whole payload. -/
def passSignatureCheck (env : ChainEnv) (payload : PaymentPayload) : Prop :=
  passSignature env (tokenAddressOf payload) payload.requirement.network
    payload.authorization

lemma verifySignatureStep_valid_iff (env : ChainEnv)
    (tokenAddress network : String) (a : SignedEIP3009Authorization) :
    (verifySignatureStep env tokenAddress network a).valid = true ↔
      passSignature env tokenAddress network a := by
  unfold verifySignatureStep passSignature
  cases h : getTokenDomain env tokenAddress network with
  | error e => simp [h]
  | ok d =>
      cases h2 : env.verifyTypedData a.fromAddr d (messageOf a)
          (signatureHex a) with
      | error e => simp [h, h2]
      | ok b => cases b <;> simp [h, h2]

lemma verifySignatureStep_fail (env : ChainEnv)
    (tokenAddress network : String) (a : SignedEIP3009Authorization)
    (h : ¬ passSignature env tokenAddress network a) :
    (verifySignatureStep env tokenAddress network a).valid = false ∧
      ((verifySignatureStep env tokenAddress network a).error =
          some "Invalid signature" ∨
        (verifySignatureStep env tokenAddress network a).error =
          some "Signature verification failed") := by
  have hv := (verifySignatureStep_valid_iff env tokenAddress network a).not.mpr h
  unfold verifySignatureStep at hv ⊢
  cases hd : getTokenDomain env tokenAddress network with
  | error e => simp [hd]
  | ok d =>
      cases h2 : env.verifyTypedData a.fromAddr d (messageOf a)
          (signatureHex a) with
      | error e => simp [hd, h2]
      | ok b => cases b <;> simp_all [hd, h2]

/-! ## Concrete sample environment and payloads for witnesses -/

/-- A requirement for 1 USDC (6 decimals) on base-sepolia, expiring at
Unix time 2000. -/
def sampleRequirement : PaymentRequirement :=
  ⟨"eip3009", "base-sepolia", "USDC", "1000000", "0xBBBB", "pay-1", 2000⟩

/-- A matching signed authorization from payer `0xAAAA`. -/
def sampleAuthorization : SignedEIP3009Authorization :=
  ⟨"0xAAAA", "0xBBBB", 1000000, 100, 3000, "0xN1", 27, "0xr1", "0xs1"⟩

/-- The corresponding non-passkey payload. -/
def samplePayload : PaymentPayload :=
  ⟨sampleRequirement, sampleAuthorization, "0xAAAA", 1000, false⟩

/-- A chain oracle where the nonce is fresh, the domain reads succeed and
the signature verifies. -/
def sampleChain : ChainEnv :=
  ⟨fun _ _ _ _ => .ok false, fun _ _ => .ok "USD Coin",
   fun _ _ => .ok "2", fun _ _ _ _ => .ok true⟩

/-- A local-signer execution environment where simulation, submission and
confirmation all succeed. -/
def sampleExec : ExecEnv :=
  ⟨true, "local", "0xFAC1", fun _ => .ok (), fun _ => .ok "0xHASH",
   fun _ => .ok true⟩

lemma verifyPayment_valid_iff (env : ChainEnv) (now : Nat)
    (p : PaymentPayload) :
    (verifyPayment env now p).valid = true ↔
      passExpiry now p ∧ passTokenAvailable p ∧ passFieldMatch p ∧
      passWindow now p ∧ passNonceFresh env p ∧ passSignatureCheck env p := by
  simp only [passExpiry, passTokenAvailable, tokenAddressOf, passFieldMatch,
    passWindow, passNonceFresh, passSignatureCheck]
  simp only [verifyPayment]
  split_ifs with h1 h2 h3 h4 h5 h6 h7 h8
  · exact iff_of_false (by simp) (by rintro ⟨hc, -⟩; omega)
  · exact iff_of_false (by simp) (by rintro ⟨-, hc, -⟩; exact hc h2)
  · exact iff_of_false (by simp) (by rintro ⟨-, -, ⟨hc, -, -⟩, -⟩; exact h3 hc)
  · exact iff_of_false (by simp) (by rintro ⟨-, -, ⟨-, hc, -⟩, -⟩; exact h4 hc)
  · exact iff_of_false (by simp) (by rintro ⟨-, -, ⟨-, -, hc⟩, -⟩; exact h5 hc)
  · exact iff_of_false (by simp) (by rintro ⟨-, -, -, ⟨hc, -⟩, -⟩; omega)
  · exact iff_of_false (by simp) (by rintro ⟨-, -, -, ⟨-, hc⟩, -⟩; omega)
  · exact iff_of_false (by simp)
      (by rintro ⟨-, -, -, -, hc, -⟩; simp [hc] at h8)
  · rw [verifySignatureStep_valid_iff]
    simp only [Bool.not_eq_true] at h8
    push_neg at h1 h3 h4 h5 h6 h7
    constructor
    · intro hsig
      exact ⟨by omega, h2, ⟨h3, h4, h5⟩, ⟨by omega, by omega⟩, h8, hsig⟩
    · rintro ⟨-, -, -, -, -, hsig⟩
      exact hsig

/-- C1: `verifyPayment` runs its six checks in the fixed order expiry,
token availability, field match, validity window, nonce freshness,
signature validity; it returns `valid: true` exactly when all six pass, and
on the first failing check it returns `valid: false` with that check's
distinct reason string. The embedding is a pure function of the payload and
read-only oracles, so it performs no state-changing side effect. -/
theorem verifyPayment_ordered_checks (env : ChainEnv) (now : Nat)
    (p : PaymentPayload) :
    ((verifyPayment env now p).valid = true ↔
      passExpiry now p ∧ passTokenAvailable p ∧ passFieldMatch p ∧
      passWindow now p ∧ passNonceFresh env p ∧ passSignatureCheck env p) ∧
    (¬ passExpiry now p →
      verifyPayment env now p = ⟨false, some "Payment request expired"⟩) ∧
    (passExpiry now p → ¬ passTokenAvailable p →
      verifyPayment env now p = ⟨false, some ("Token " ++
        p.requirement.token ++ " not available on " ++
        p.requirement.network)⟩) ∧
    (passExpiry now p → passTokenAvailable p → ¬ passFieldMatch p →
      (verifyPayment env now p).valid = false ∧
      ((verifyPayment env now p).error =
          some "Authorization from address mismatch" ∨
        (verifyPayment env now p).error =
          some "Authorization to address mismatch" ∨
        (verifyPayment env now p).error =
          some "Authorization amount mismatch")) ∧
    (passExpiry now p → passTokenAvailable p → passFieldMatch p →
      ¬ passWindow now p →
      (verifyPayment env now p).valid = false ∧
      ((verifyPayment env now p).error = some "Authorization not yet valid" ∨
        (verifyPayment env now p).error = some "Authorization expired")) ∧
    (passExpiry now p → passTokenAvailable p → passFieldMatch p →
      passWindow now p → ¬ passNonceFresh env p →
      verifyPayment env now p =
        ⟨false, some "Authorization nonce already used"⟩) ∧
    (passExpiry now p → passTokenAvailable p → passFieldMatch p →
      passWindow now p → passNonceFresh env p → ¬ passSignatureCheck env p →
      (verifyPayment env now p).valid = false ∧
      ((verifyPayment env now p).error = some "Invalid signature" ∨
        (verifyPayment env now p).error =
          some "Signature verification failed")) := by
  refine ⟨verifyPayment_valid_iff env now p, ?_, ?_, ?_, ?_, ?_, ?_⟩
  · intro hn1
    simp only [passExpiry] at hn1
    have h1 : now > p.requirement.expiresAt := by omega
    simp only [verifyPayment]
    split_ifs
    rfl
  · intro hp1 hn2
    simp only [passExpiry] at hp1
    simp only [passTokenAvailable, tokenAddressOf] at hn2
    push_neg at hn2
    have h1 : ¬ now > p.requirement.expiresAt := by omega
    simp only [verifyPayment]
    split_ifs
    rfl
  · intro hp1 hp2 hn3
    simp only [passExpiry] at hp1
    simp only [passTokenAvailable, tokenAddressOf] at hp2
    simp only [passFieldMatch] at hn3
    have h1 : ¬ now > p.requirement.expiresAt := by omega
    simp only [verifyPayment]
    split_ifs with hc3 hc4 hc5 hc6 hc7 hc8 <;>
      first | (refine ⟨rfl, ?_⟩; simp; done) |
        exact absurd ⟨not_not.mp hc3, not_not.mp hc4, not_not.mp hc5⟩ hn3
  · intro hp1 hp2 hp3 hn4
    simp only [passExpiry] at hp1
    simp only [passTokenAvailable, tokenAddressOf] at hp2
    simp only [passFieldMatch] at hp3
    simp only [passWindow] at hn4
    have h1 : ¬ now > p.requirement.expiresAt := by omega
    have hf1 : ¬ toLowerCase p.authorization.fromAddr ≠
        toLowerCase p.payer := not_not_intro hp3.1
    have hf2 : ¬ toLowerCase p.authorization.toAddr ≠
        toLowerCase p.requirement.recipient := not_not_intro hp3.2.1
    have hf3 : ¬ Nat.repr p.authorization.value ≠
        p.requirement.amount := not_not_intro hp3.2.2
    simp only [verifyPayment]
    split_ifs with hc6 hc7 hc8 <;>
      first | (refine ⟨rfl, ?_⟩; simp; done) |
        (refine absurd ⟨?_, ?_⟩ hn4 <;> omega)
  · intro hp1 hp2 hp3 hp4 hn5
    simp only [passExpiry] at hp1
    simp only [passTokenAvailable, tokenAddressOf] at hp2
    simp only [passFieldMatch] at hp3
    simp only [passWindow] at hp4
    simp only [passNonceFresh, tokenAddressOf] at hn5
    simp only [Bool.not_eq_false] at hn5
    have h1 : ¬ now > p.requirement.expiresAt := by omega
    have hf1 : ¬ toLowerCase p.authorization.fromAddr ≠
        toLowerCase p.payer := not_not_intro hp3.1
    have hf2 : ¬ toLowerCase p.authorization.toAddr ≠
        toLowerCase p.requirement.recipient := not_not_intro hp3.2.1
    have hf3 : ¬ Nat.repr p.authorization.value ≠
        p.requirement.amount := not_not_intro hp3.2.2
    have h6 : ¬ now < p.authorization.validAfter := by omega
    have h7 : ¬ now > p.authorization.validBefore := by omega
    simp only [verifyPayment]
    split_ifs
    rfl
  · intro hp1 hp2 hp3 hp4 hp5 hn6
    simp only [passExpiry] at hp1
    simp only [passTokenAvailable, tokenAddressOf] at hp2
    simp only [passFieldMatch] at hp3
    simp only [passWindow] at hp4
    simp only [passNonceFresh, tokenAddressOf] at hp5
    simp only [passSignatureCheck, tokenAddressOf] at hn6
    have h1 : ¬ now > p.requirement.expiresAt := by omega
    have hf1 : ¬ toLowerCase p.authorization.fromAddr ≠
        toLowerCase p.payer := not_not_intro hp3.1
    have hf2 : ¬ toLowerCase p.authorization.toAddr ≠
        toLowerCase p.requirement.recipient := not_not_intro hp3.2.1
    have hf3 : ¬ Nat.repr p.authorization.value ≠
        p.requirement.amount := not_not_intro hp3.2.2
    have h6 : ¬ now < p.authorization.validAfter := by omega
    have h7 : ¬ now > p.authorization.validBefore := by omega
    have h8 : ¬ isNonceUsed (env.nonceQuery
        (getTokenAddress p.requirement.token p.requirement.network)
        p.authorization.fromAddr p.authorization.nonce
        p.requirement.network) = true := by simp [hp5]
    simp only [verifyPayment]
    split_ifs
    exact verifySignatureStep_fail env _ _ _ hn6

instance (now : Nat) (p : PaymentPayload) : Decidable (passExpiry now p) := by
  unfold passExpiry; infer_instance

instance (p : PaymentPayload) : Decidable (passTokenAvailable p) := by
  unfold passTokenAvailable; infer_instance

instance (p : PaymentPayload) : Decidable (passFieldMatch p) := by
  unfold passFieldMatch; infer_instance

instance (now : Nat) (p : PaymentPayload) : Decidable (passWindow now p) := by
  unfold passWindow; infer_instance

instance (env : ChainEnv) (p : PaymentPayload) :
    Decidable (passNonceFresh env p) := by
  unfold passNonceFresh; infer_instance

/-- Witness for C1: on the fully-passing sample payload the verifier
returns `valid: true`. -/
theorem verifyPayment_ordered_checks_witness :
    (verifyPayment sampleChain 1000 samplePayload).valid = true :=
  (verifyPayment_ordered_checks sampleChain 1000 samplePayload).1.mpr
    ⟨by decide, by decide, by decide, by decide, by decide,
     ⟨⟨"USD Coin", "2", 84532,
       "0x036CbD53842c5426634e7929541eC2318f3dCF7e"⟩, rfl, rfl⟩⟩

/-- A requirement that already expired at verification time 1000. -/
def expiredRequirement : PaymentRequirement :=
  ⟨"eip3009", "base-sepolia", "USDC", "1000000", "0xBBBB", "pay-2", 500⟩

/-- The payload carrying the expired requirement. -/
def expiredPayload : PaymentPayload :=
  ⟨expiredRequirement, sampleAuthorization, "0xAAAA", 1000, false⟩

/-- Like `sampleChain` but the `authorizationState` read rejects. -/
def failingNonceChain : ChainEnv :=
  ⟨fun _ _ _ _ => .error (), fun _ _ => .ok "USD Coin",
   fun _ _ => .ok "2", fun _ _ _ _ => .ok true⟩

/-- C2: for a non-passkey payload the settle route runs the verifier before
any transfer execution; when verification fails, the route answers
`success: false` with the verifier's error and submits no transaction. -/
theorem settle_verifies_before_execution (chain : ChainEnv) (env : ExecEnv)
    (now : Nat) (payload : PaymentPayload)
    (hnp : payload.isPasskeyPayment = false)
    (hfail : (verifyPayment chain now payload).valid = false) :
    settleHandler chain env now payload =
      (⟨false, none, (verifyPayment chain now payload).error⟩, []) := by
  unfold settleHandler
  rw [hnp]
  simp [hfail]

/-- Witness for C2: the expired sample payload is rejected by the verifier
and the settle route propagates the reason with no submission. -/
theorem settle_verifies_before_execution_witness :
    settleHandler sampleChain sampleExec 1000 expiredPayload =
      (⟨false, none, some "Payment request expired"⟩, []) := by
  rw [settle_verifies_before_execution sampleChain sampleExec 1000
    expiredPayload rfl (by decide)]
  decide

/-- C7 counterexample: when the on-chain nonce query itself fails, the
source's `catch` branch returns `false` (nonce treated as not used) and
emits no console output at all, so the ambiguity is not logged. -/
theorem isNonceUsed_failopen_unlogged :
    isNonceUsedLog (Except.error ()) = (false, []) := rfl

/-- C7 amended: when the on-chain nonce-used query fails, the verifier
treats the nonce as not used — with the four earlier checks passing,
verification proceeds to the signature check instead of failing closed —
but no log of the ambiguity is emitted. -/
theorem nonce_query_failure_fail_open :
    (∀ e : Unit, isNonceUsedLog (Except.error e) = (false, [])) ∧
    (∀ (env : ChainEnv) (now : Nat) (p : PaymentPayload),
      passExpiry now p → passTokenAvailable p → passFieldMatch p →
      passWindow now p →
      env.nonceQuery (tokenAddressOf p) p.authorization.fromAddr
        p.authorization.nonce p.requirement.network = .error () →
      verifyPayment env now p =
        verifySignatureStep env (tokenAddressOf p) p.requirement.network
          p.authorization) := by
  constructor
  · intro e; rfl
  · intro env now p hp1 hp2 hp3 hp4 hq
    simp only [passExpiry] at hp1
    simp only [passTokenAvailable, tokenAddressOf] at hp2
    simp only [passFieldMatch] at hp3
    simp only [passWindow] at hp4
    simp only [tokenAddressOf] at hq
    have h1 : ¬ now > p.requirement.expiresAt := by omega
    have hf1 : ¬ toLowerCase p.authorization.fromAddr ≠
        toLowerCase p.payer := not_not_intro hp3.1
    have hf2 : ¬ toLowerCase p.authorization.toAddr ≠
        toLowerCase p.requirement.recipient := not_not_intro hp3.2.1
    have hf3 : ¬ Nat.repr p.authorization.value ≠
        p.requirement.amount := not_not_intro hp3.2.2
    have h6 : ¬ now < p.authorization.validAfter := by omega
    have h7 : ¬ now > p.authorization.validBefore := by omega
    have h8 : ¬ isNonceUsed (env.nonceQuery
        (getTokenAddress p.requirement.token p.requirement.network)
        p.authorization.fromAddr p.authorization.nonce
        p.requirement.network) = true := by
      rw [hq]; simp [isNonceUsed, isNonceUsedLog]
    simp only [verifyPayment]
    split_ifs
    simp only [tokenAddressOf]

/-- Witness for C7 (amended): with the nonce query rejecting and all other
oracles as in the passing sample, verification still reaches the signature
step and succeeds. -/
theorem nonce_query_failure_fail_open_witness :
    verifyPayment failingNonceChain 1000 samplePayload =
      verifySignatureStep failingNonceChain (tokenAddressOf samplePayload)
        samplePayload.requirement.network samplePayload.authorization :=
  nonce_query_failure_fail_open.2 failingNonceChain 1000 samplePayload
    (by decide) (by decide) (by decide) (by decide) rfl

/-- C9: errors raised during primary-path settlement are classified by
substring of the message, in the fixed order: `insufficient funds` maps to
the insufficient-gas-funds category, else `nonce` to
`Authorization nonce already used`, else `balance` to
`Insufficient token balance`, else the raw message is returned verbatim;
and a simulation error makes the executor return `success: false` with the
classified message and no submitted transaction. -/
theorem transfer_error_classification :
    (∀ e, containsSubstr "insufficient funds" e = true →
      classifyError e = "Facilitator has insufficient gas funds") ∧
    (∀ e, containsSubstr "insufficient funds" e = false →
      containsSubstr "nonce" e = true →
      classifyError e = "Authorization nonce already used") ∧
    (∀ e, containsSubstr "insufficient funds" e = false →
      containsSubstr "nonce" e = false →
      containsSubstr "balance" e = true →
      classifyError e = "Insufficient token balance") ∧
    (∀ e, containsSubstr "insufficient funds" e = false →
      containsSubstr "nonce" e = false →
      containsSubstr "balance" e = false →
      classifyError e = e) ∧
    (∀ (env : ExecEnv) (p : PaymentPayload) (e : String),
      env.signerIsLocal = true →
      env.simulate (authTransferCall env p) = .error e →
      executeTransferWithAuthorization env p =
        (⟨false, none, some (classifyError e)⟩, [])) := by
  refine ⟨?_, ?_, ?_, ?_, ?_⟩
  · intro e h1
    simp [classifyError, h1]
  · intro e h1 h2
    simp [classifyError, h1, h2]
  · intro e h1 h2 h3
    simp [classifyError, h1, h2, h3]
  · intro e h1 h2 h3
    simp [classifyError, h1, h2, h3]
  · intro env p e hL hs
    simp [executeTransferWithAuthorization, hL, hs]

/-- Witness for C9: a revert message mentioning `balance` lands in the
token-balance category. -/
theorem transfer_error_classification_witness :
    classifyError "execution reverted: transfer amount exceeds balance" =
      "Insufficient token balance" :=
  transfer_error_classification.2.2.1
    "execution reverted: transfer amount exceeds balance"
    (by decide) (by decide) (by decide)

/-- A non-local (KMS secp256k1) signer environment whose chain operations
would all succeed. -/
def kmsExec : ExecEnv :=
  ⟨false, "gcp-kms-secp256k1", "0xFAC1", fun _ => .ok (),
   fun _ => .ok "0xHASH", fun _ => .ok true⟩

set_option maxRecDepth 8192 in
/-- C10: with a non-local (KMS) signer, `executeTransferWithAuthorization`
returns `success: false` carrying the KMS-not-implemented message verbatim
(the message matches none of the classifier categories) and submits no
transaction; submission only ever happens on the local-signer branch. -/
theorem kms_signer_not_implemented (env : ExecEnv) (p : PaymentPayload)
    (hnl : env.signerIsLocal = false)
    (ht : env.signerType = "gcp-kms-secp256k1" ∨
      env.signerType = "gcp-kms-p256") :
    executeTransferWithAuthorization env p =
      (⟨false, none, some (kmsNotImplementedMessage env.signerType)⟩, []) := by
  have hc : classifyError (kmsNotImplementedMessage env.signerType) =
      kmsNotImplementedMessage env.signerType := by
    rcases ht with h | h <;> rw [h] <;> decide
  unfold executeTransferWithAuthorization
  rw [hnl]
  simp [hc]

/-- Witness for C10: the KMS secp256k1 environment gets the verbatim
not-implemented error and no submission. -/
theorem kms_signer_not_implemented_witness :
    executeTransferWithAuthorization kmsExec samplePayload =
      (⟨false, none,
        some (kmsNotImplementedMessage "gcp-kms-secp256k1")⟩, []) :=
  kms_signer_not_implemented kmsExec samplePayload rfl (Or.inl rfl)

lemma executePasskeyTransfer_calls (env : ExecEnv) (p : PaymentPayload) :
    (executePasskeyTransfer env p).2.1 = [] ∨
    (executePasskeyTransfer env p).2.1 = [passkeyTransferCall env p] := by
  unfold executePasskeyTransfer
  split_ifs with hL
  · cases hs : env.simulate (passkeyTransferCall env p) with
    | error e => simp
    | ok u =>
        cases hw : env.write (passkeyTransferCall env p) with
        | error e => simp
        | ok hash =>
            cases hr : env.waitReceipt hash with
            | error e => simp [hr]
            | ok b => cases b <;> simp [hr]
  · simp

lemma settleHandler_passkey_calls (chain : ChainEnv) (env : ExecEnv)
    (now : Nat) (p : PaymentPayload) (hpk : p.isPasskeyPayment = true) :
    (settleHandler chain env now p).2 = (executePasskeyTransfer env p).2.1 := by
  unfold settleHandler
  rw [hpk]
  simp only [if_true]
  split_ifs <;> rfl

/-- C8: for a passkey payload the settle route never submits the user's
authorization (`transferWithAuthorization`) to the token contract; on the
successful local-signer path the single submitted transaction is a plain
ERC-20 `transfer` from the facilitator's own account for exactly the
requirement's amount to the requirement's recipient, and the executor logs
it explicitly as a facilitator-funded transfer. -/
theorem settle_passkey_facilitator_funded :
    (∀ (chain : ChainEnv) (env : ExecEnv) (now : Nat) (p : PaymentPayload),
      p.isPasskeyPayment = true →
      ∀ c ∈ (settleHandler chain env now p).2, c.isAuthTransfer = false) ∧
    (∀ (chain : ChainEnv) (env : ExecEnv) (now : Nat) (p : PaymentPayload)
        (hash : String),
      p.isPasskeyPayment = true →
      env.signerIsLocal = true →
      env.simulate (passkeyTransferCall env p) = .ok () →
      env.write (passkeyTransferCall env p) = .ok hash →
      env.waitReceipt hash = .ok true →
      settleHandler chain env now p =
        (⟨true, some hash, none⟩,
         [ChainCall.erc20Transfer
            (getTokenAddress p.requirement.token p.requirement.network)
            env.facilitatorAddress p.requirement.recipient
            (parseDecimal p.requirement.amount)]) ∧
      (executePasskeyTransfer env p).2.2 =
        ["[Passkey] Transfer successful: " ++ passkeyLogNote]) := by
  constructor
  · intro chain env now p hpk c hc
    rw [settleHandler_passkey_calls chain env now p hpk] at hc
    rcases executePasskeyTransfer_calls env p with h | h
    · rw [h] at hc
      simp at hc
    · rw [h] at hc
      simp at hc
      rw [hc]
      rfl
  · intro chain env now p hash hpk hL hs hw hr
    have he : executePasskeyTransfer env p =
        (⟨true, some hash, none⟩, [passkeyTransferCall env p],
         ["[Passkey] Transfer successful: " ++ passkeyLogNote]) := by
      unfold executePasskeyTransfer
      rw [hL]
      simp only [if_true]
      simp only [hs, hw, hr]
    constructor
    · unfold settleHandler
      rw [hpk]
      simp only [if_true, he]
      rfl
    · rw [he]

/-- A passkey-flagged payload over the sample requirement. -/
def passkeyPayload : PaymentPayload :=
  ⟨sampleRequirement, sampleAuthorization, "0xAAAA", 1000, true⟩

/-- Witness for C8: on the successful sample environment the passkey settle
submits exactly the facilitator-funded ERC-20 transfer. -/
theorem settle_passkey_facilitator_funded_witness :
    settleHandler sampleChain sampleExec 1000 passkeyPayload =
      (⟨true, some "0xHASH", none⟩,
       [ChainCall.erc20Transfer "0x036CbD53842c5426634e7929541eC2318f3dCF7e"
          "0xFAC1" "0xBBBB" 1000000]) := by
  rw [(settle_passkey_facilitator_funded.2 sampleChain sampleExec 1000
    passkeyPayload "0xHASH" rfl rfl rfl rfl rfl).1]
  decide

/-- A payload whose authorization value exceeds the required amount
`1000000` by exactly 1 unit. -/
def amountMismatchPayload : PaymentPayload :=
  ⟨sampleRequirement,
   ⟨"0xAAAA", "0xBBBB", 1000001, 100, 3000, "0xN1", 27, "0xr1", "0xs1"⟩,
   "0xAAAA", 1000, false⟩

/-- Like `sampleChain` but `verifyTypedData` reports the signature invalid
(as it does for a signature bound to a different EIP-712 domain, e.g. a
wrong chain id). -/
def badSigChain : ChainEnv :=
  ⟨fun _ _ _ _ => .ok false, fun _ _ => .ok "USD Coin",
   fun _ _ => .ok "2", fun _ _ _ _ => .ok false⟩

/-- C3: holding the other checks at pass, the verifier independently
rejects: an authorization whose amount string differs from the
requirement's amount (in particular by 1 unit) with
`Authorization amount mismatch`; one whose `validBefore` is earlier than
the current time with `Authorization expired`; one whose nonce the
contract reports used with `Authorization nonce already used`; and one the
domain-bound `verifyTypedData` check rejects with `Invalid signature` —
where the domain the verifier constructs carries the network's chain id,
so a signature made for another chain id fails exactly this check. -/
theorem verifyPayment_independent_rejections :
    (∀ (env : ChainEnv) (now : Nat) (p : PaymentPayload),
      passExpiry now p → passTokenAvailable p →
      toLowerCase p.authorization.fromAddr = toLowerCase p.payer →
      toLowerCase p.authorization.toAddr =
        toLowerCase p.requirement.recipient →
      Nat.repr p.authorization.value ≠ p.requirement.amount →
      verifyPayment env now p =
        ⟨false, some "Authorization amount mismatch"⟩) ∧
    (∀ (env : ChainEnv) (now : Nat) (p : PaymentPayload),
      passExpiry now p → passTokenAvailable p → passFieldMatch p →
      p.authorization.validAfter ≤ now →
      p.authorization.validBefore < now →
      verifyPayment env now p = ⟨false, some "Authorization expired"⟩) ∧
    (∀ (env : ChainEnv) (now : Nat) (p : PaymentPayload),
      passExpiry now p → passTokenAvailable p → passFieldMatch p →
      passWindow now p →
      env.nonceQuery (tokenAddressOf p) p.authorization.fromAddr
        p.authorization.nonce p.requirement.network = .ok true →
      verifyPayment env now p =
        ⟨false, some "Authorization nonce already used"⟩) ∧
    (∀ (env : ChainEnv) (now : Nat) (p : PaymentPayload)
        (domain : EIP3009Domain),
      passExpiry now p → passTokenAvailable p → passFieldMatch p →
      passWindow now p → passNonceFresh env p →
      getTokenDomain env (tokenAddressOf p) p.requirement.network =
        .ok domain →
      env.verifyTypedData p.authorization.fromAddr domain
        (messageOf p.authorization) (signatureHex p.authorization) =
        .ok false →
      domain.chainId = networkChainId p.requirement.network ∧
      verifyPayment env now p = ⟨false, some "Invalid signature"⟩) := by
  refine ⟨?_, ?_, ?_, ?_⟩
  · intro env now p hp1 hp2 heq1 heq2 hneq
    simp only [passExpiry] at hp1
    simp only [passTokenAvailable, tokenAddressOf] at hp2
    have h1 : ¬ now > p.requirement.expiresAt := by omega
    have hf1 : ¬ toLowerCase p.authorization.fromAddr ≠
        toLowerCase p.payer := not_not_intro heq1
    have hf2 : ¬ toLowerCase p.authorization.toAddr ≠
        toLowerCase p.requirement.recipient := not_not_intro heq2
    simp only [verifyPayment]
    split_ifs
    rfl
  · intro env now p hp1 hp2 hp3 hAfter hBefore
    simp only [passExpiry] at hp1
    simp only [passTokenAvailable, tokenAddressOf] at hp2
    simp only [passFieldMatch] at hp3
    have h1 : ¬ now > p.requirement.expiresAt := by omega
    have hf1 : ¬ toLowerCase p.authorization.fromAddr ≠
        toLowerCase p.payer := not_not_intro hp3.1
    have hf2 : ¬ toLowerCase p.authorization.toAddr ≠
        toLowerCase p.requirement.recipient := not_not_intro hp3.2.1
    have hf3 : ¬ Nat.repr p.authorization.value ≠
        p.requirement.amount := not_not_intro hp3.2.2
    have h6 : ¬ now < p.authorization.validAfter := by omega
    have h7 : now > p.authorization.validBefore := by omega
    simp only [verifyPayment]
    split_ifs
    rfl
  · intro env now p hp1 hp2 hp3 hp4 hnq
    simp only [passExpiry] at hp1
    simp only [passTokenAvailable, tokenAddressOf] at hp2
    simp only [passFieldMatch] at hp3
    simp only [passWindow] at hp4
    simp only [tokenAddressOf] at hnq
    have h1 : ¬ now > p.requirement.expiresAt := by omega
    have hf1 : ¬ toLowerCase p.authorization.fromAddr ≠
        toLowerCase p.payer := not_not_intro hp3.1
    have hf2 : ¬ toLowerCase p.authorization.toAddr ≠
        toLowerCase p.requirement.recipient := not_not_intro hp3.2.1
    have hf3 : ¬ Nat.repr p.authorization.value ≠
        p.requirement.amount := not_not_intro hp3.2.2
    have h6 : ¬ now < p.authorization.validAfter := by omega
    have h7 : ¬ now > p.authorization.validBefore := by omega
    have h8 : isNonceUsed (env.nonceQuery
        (getTokenAddress p.requirement.token p.requirement.network)
        p.authorization.fromAddr p.authorization.nonce
        p.requirement.network) = true := by rw [hnq]; rfl
    simp only [verifyPayment]
    split_ifs
    rfl
  · intro env now p domain hp1 hp2 hp3 hp4 hp5 hdom hsig
    simp only [passExpiry] at hp1
    simp only [passTokenAvailable, tokenAddressOf] at hp2
    simp only [passFieldMatch] at hp3
    simp only [passWindow] at hp4
    simp only [passNonceFresh, tokenAddressOf] at hp5
    simp only [tokenAddressOf] at hdom
    have h1 : ¬ now > p.requirement.expiresAt := by omega
    have hf1 : ¬ toLowerCase p.authorization.fromAddr ≠
        toLowerCase p.payer := not_not_intro hp3.1
    have hf2 : ¬ toLowerCase p.authorization.toAddr ≠
        toLowerCase p.requirement.recipient := not_not_intro hp3.2.1
    have hf3 : ¬ Nat.repr p.authorization.value ≠
        p.requirement.amount := not_not_intro hp3.2.2
    have h6 : ¬ now < p.authorization.validAfter := by omega
    have h7 : ¬ now > p.authorization.validBefore := by omega
    have h8 : ¬ isNonceUsed (env.nonceQuery
        (getTokenAddress p.requirement.token p.requirement.network)
        p.authorization.fromAddr p.authorization.nonce
        p.requirement.network) = true := by simp [hp5]
    constructor
    · unfold getTokenDomain at hdom
      cases hn : env.nameQuery
          (getTokenAddress p.requirement.token p.requirement.network)
          p.requirement.network with
      | error e => rw [hn] at hdom; simp at hdom
      | ok name =>
          rw [hn] at hdom
          simp only [Except.ok.injEq] at hdom
          rw [← hdom]
    · simp only [verifyPayment]
      split_ifs
      unfold verifySignatureStep
      simp only [hdom, hsig]

/-- Witness for C3: the one-unit amount mismatch is rejected with the
amount reason, and a domain-rejected signature is rejected with
`Invalid signature`. -/
theorem verifyPayment_independent_rejections_witness :
    verifyPayment sampleChain 1000 amountMismatchPayload =
      ⟨false, some "Authorization amount mismatch"⟩ ∧
    verifyPayment badSigChain 1000 samplePayload =
      ⟨false, some "Invalid signature"⟩ :=
  ⟨verifyPayment_independent_rejections.1 sampleChain 1000
      amountMismatchPayload (by decide) (by decide) (by decide) (by decide)
      (by decide),
   (verifyPayment_independent_rejections.2.2.2 badSigChain 1000 samplePayload
      ⟨"USD Coin", "2", 84532, "0x036CbD53842c5426634e7929541eC2318f3dCF7e"⟩
      (by decide) (by decide) (by decide) (by decide) (by decide)
      rfl rfl).2⟩

lemma comparePublicKeys_eq_true_iff (a b : List Nat) :
    comparePublicKeys a b = true ↔ a = b := by
  simp [comparePublicKeys]

lemma recoverV_none (recover : List Nat → List Nat → Nat →
      Except Unit (List Nat)) (r s publicKey : List Nat)
    (h : ∀ v k, (v = 27 ∨ v = 28) → recover r s v = .ok k →
      k ≠ publicKey) :
    recoverV recover r s publicKey = .error "Failed to recover v value" := by
  unfold recoverV
  cases h27 : recover r s 27 with
  | error e =>
      cases h28 : recover r s 28 with
      | error e2 => rfl
      | ok k =>
          have hk := h 28 k (Or.inr rfl) h28
          simp [comparePublicKeys_eq_true_iff, hk]
  | ok k =>
      have hk := h 27 k (Or.inl rfl) h27
      cases h28 : recover r s 28 with
      | error e2 => simp [comparePublicKeys_eq_true_iff, hk, h28]
      | ok k2 =>
          have hk2 := h 28 k2 (Or.inr rfl) h28
          simp [comparePublicKeys_eq_true_iff, hk, h28, hk2]

/-- C4: `signHash` resolves the recovery parameter by trying both
candidates 27 and 28, recovering the public key from (hash, r, s, v) for
each, and accepting the candidate whose recovered key equals the cached
KMS public key; if neither candidate recovers the cached key it throws
`Failed to recover v value` instead of guessing. -/
theorem signHash_recovery_trial :
    (∀ (recover : List Nat → List Nat → Nat → Except Unit (List Nat))
        (r s publicKey : List Nat),
      recover r s 27 = .ok publicKey →
      recoverV recover r s publicKey = .ok 27) ∧
    (∀ (recover : List Nat → List Nat → Nat → Except Unit (List Nat))
        (r s publicKey : List Nat),
      (∀ k, recover r s 27 = .ok k → k ≠ publicKey) →
      recover r s 28 = .ok publicKey →
      recoverV recover r s publicKey = .ok 28) ∧
    (∀ (recover : List Nat → List Nat → Nat → Except Unit (List Nat))
        (r s publicKey : List Nat),
      (∀ v k, (v = 27 ∨ v = 28) → recover r s v = .ok k →
        k ≠ publicKey) →
      recoverV recover r s publicKey = .error "Failed to recover v value") ∧
    (∀ (der : List Nat)
        (recover : List Nat → List Nat → Nat → Except Unit (List Nat))
        (publicKey r s : List Nat),
      parseDerSignature secp256k1Order der = .ok (r, s) →
      (∀ v k, (v = 27 ∨ v = 28) → recover r s v = .ok k →
        k ≠ publicKey) →
      signHash der recover publicKey =
        .error "Failed to recover v value") := by
  refine ⟨?_, ?_, ?_, ?_⟩
  · intro recover r s publicKey h27
    unfold recoverV
    rw [h27]
    simp [comparePublicKeys_eq_true_iff]
  · intro recover r s publicKey h27 h28
    unfold recoverV
    cases hc : recover r s 27 with
    | error e => rw [h28]; simp [comparePublicKeys_eq_true_iff]
    | ok k =>
        have hk := h27 k hc
        rw [h28]
        simp [comparePublicKeys_eq_true_iff, hk]
  · intro recover r s publicKey h
    exact recoverV_none recover r s publicKey h
  · intro der recover publicKey r s hparse h
    unfold signHash
    rw [hparse]
    simp only [recoverV_none recover r s publicKey h]

/-- A concrete recovery oracle: candidate 27 recovers a key different from
the cached one, candidate 28 recovers nothing (throws). -/
def mismatchRecover : List Nat → List Nat → Nat → Except Unit (List Nat) :=
  fun _ _ v => if v = 27 then .ok [1, 2, 3] else .error ()

/-- Witness for C4: with the mismatching oracle and cached key `[9]`,
`signHash` on a well-formed DER signature (r = 5, s = 7) throws instead of
guessing. -/
theorem signHash_recovery_trial_witness :
    signHash [0x30, 0x06, 0x02, 0x01, 0x05, 0x02, 0x01, 0x07]
        mismatchRecover [9] =
      .error "Failed to recover v value" :=
  signHash_recovery_trial.2.2.2
    [0x30, 0x06, 0x02, 0x01, 0x05, 0x02, 0x01, 0x07] mismatchRecover [9]
    (padTo32 [5]) (padTo32 [7]) rfl
    (by
      intro v k hv hk
      rcases hv with h | h <;> rw [h] at hk <;>
        simp [mismatchRecover] at hk
      rw [← hk]
      decide)

/-! ## Codec arithmetic lemmas -/

lemma beNat_aux (l : List Nat) (acc : Nat) :
    l.foldl (fun a b => a * 256 + b) acc = acc * 256 ^ l.length + beNat l := by
  induction l generalizing acc with
  | nil => simp [beNat]
  | cons x t ih =>
      simp only [List.foldl_cons, List.length_cons, beNat]
      rw [ih (acc * 256 + x)]
      have h0 : 0 * 256 + x = x := by omega
      rw [h0, ih x]
      ring

lemma beNat_append (a b : List Nat) :
    beNat (a ++ b) = beNat a * 256 ^ b.length + beNat b := by
  unfold beNat
  rw [List.foldl_append]
  exact beNat_aux b _

lemma beNat_cons_zero (l : List Nat) : beNat (0 :: l) = beNat l := by
  simp [beNat]

lemma beNat_replicate_zero (k : Nat) (l : List Nat) :
    beNat (List.replicate k 0 ++ l) = beNat l := by
  induction k with
  | zero => simp
  | succ k ih =>
      rw [List.replicate_succ, List.cons_append, beNat_cons_zero]
      exact ih

lemma beNat_padTo32 (l : List Nat) : beNat (padTo32 l) = beNat l := by
  unfold padTo32
  split_ifs
  · exact beNat_replicate_zero _ l
  · rfl

lemma padTo32_length (l : List Nat) (h : l.length ≤ 32) :
    (padTo32 l).length = 32 := by
  unfold padTo32
  split_ifs with h2
  · simp
    omega
  · omega

lemma minimalBytes_spec (n : Nat) : beNat (minimalBytes n) = n := by
  induction n using Nat.strong_induction_on with
  | _ n ih =>
      unfold minimalBytes
      split_ifs with h
      · simp [beNat]
      · rw [beNat_append, ih (n / 256) (Nat.div_lt_self (by omega) (by omega))]
        simp [beNat]
        omega

lemma minimalBytes_length (k n : Nat) (h : n < 256 ^ (k + 1)) :
    (minimalBytes n).length ≤ k + 1 := by
  induction k generalizing n with
  | zero =>
      unfold minimalBytes
      split_ifs with h2
      · simp
      · exfalso
        have : n < 256 := by simpa using h
        omega
  | succ k ih =>
      unfold minimalBytes
      split_ifs with h2
      · simp
      · rw [List.length_append]
        have hdiv : n / 256 < 256 ^ (k + 1) := by
          rw [Nat.div_lt_iff_lt_mul (by omega : (0:Nat) < 256)]
          calc n < 256 ^ (k + 2) := h
          _ = 256 ^ (k + 1) * 256 := by rw [pow_succ]
        have := ih (n / 256) hdiv
        simp
        omega

lemma stripPad_derInt (x : Nat) (hx : x < 256 ^ 32) :
    (padTo32 (stripLeadingZero (derInt x))).length = 32 ∧
    beNat (padTo32 (stripLeadingZero (derInt x))) = x := by
  have hlen : (minimalBytes x).length ≤ 32 := minimalBytes_length 31 x hx
  have hd : derInt x = minimalBytes x ∨ derInt x = 0 :: minimalBytes x := by
    simp only [derInt]
    split_ifs
    · right; rfl
    · left; rfl
  rcases hd with hd | hd <;> rw [hd]
  · have hs : stripLeadingZero (minimalBytes x) = minimalBytes x := by
      unfold stripLeadingZero
      split_ifs with h
      · exfalso; omega
      · rfl
    rw [hs]
    refine ⟨padTo32_length _ hlen, ?_⟩
    rw [beNat_padTo32]
    exact minimalBytes_spec x
  · by_cases hL : (minimalBytes x).length = 32
    · have hs : stripLeadingZero (0 :: minimalBytes x) = minimalBytes x := by
        unfold stripLeadingZero
        split_ifs with h
        · rfl
        · exact absurd ⟨rfl, by simp [hL]⟩ h
      rw [hs]
      refine ⟨padTo32_length _ hlen, ?_⟩
      rw [beNat_padTo32]
      exact minimalBytes_spec x
    · have hs : stripLeadingZero (0 :: minimalBytes x) =
          0 :: minimalBytes x := by
        unfold stripLeadingZero
        split_ifs with h
        · exfalso
          have := h.2
          simp at this
          omega
        · rfl
      rw [hs]
      constructor
      · apply padTo32_length
        simp
        omega
      · rw [beNat_padTo32, beNat_cons_zero]
        exact minimalBytes_spec x

/-! ## Parser offset bookkeeping -/

lemma get?_cons4 (a b c d : Nat) (t : List Nat) (k : Nat) :
    (a :: b :: c :: d :: t).get? (4 + k) = t.get? k := by
  have h : 4 + k = k + 4 := by omega
  rw [h]
  rfl

lemma get?_cons4_succ (a b c d : Nat) (t : List Nat) (k : Nat) :
    (a :: b :: c :: d :: t).get? (4 + k + 1) = t.get? (k + 1) := by
  have h : 4 + k + 1 = 4 + (k + 1) := by omega
  rw [h, get?_cons4]

lemma drop_cons4_2 (a b c d : Nat) (t : List Nat) (k : Nat) :
    (a :: b :: c :: d :: t).drop (4 + k + 2) = t.drop (k + 2) := by
  have h : 4 + k + 2 = (k + 2) + 4 := by omega
  rw [h]
  rfl

lemma get?_append_len0 (l t : List Nat) : (l ++ t).get? l.length = t.get? 0 := by
  induction l with
  | nil => rfl
  | cons x l ih => simpa using ih

lemma get?_append_len (l t : List Nat) (k : Nat) :
    (l ++ t).get? (l.length + k) = t.get? k := by
  induction l with
  | nil => simp
  | cons x l ih =>
      have h : (x :: l).length + k = (l.length + k) + 1 := by
        simp
        omega
      rw [h]
      simpa using ih

lemma drop_append_len (l t : List Nat) (k : Nat) :
    (l ++ t).drop (l.length + k) = t.drop k := by
  induction l with
  | nil => simp
  | cons x l ih =>
      have h : (x :: l).length + k = (l.length + k) + 1 := by
        simp
        omega
      rw [h]
      simp

/-- Parsing a well-formed DER signature built by `derSignature` recovers
the stripped-and-padded integer components, then canonicalizes `s`. -/
lemma parseDer_derSignature (order r s : Nat) :
    parseDerSignature order (derSignature r s) =
      (if beNat (padTo32 (stripLeadingZero (derInt s))) > order / 2 then
        .ok (padTo32 (stripLeadingZero (derInt r)),
          natToBytes32 (order -
            beNat (padTo32 (stripLeadingZero (derInt s)))))
      else
        .ok (padTo32 (stripLeadingZero (derInt r)),
          padTo32 (stripLeadingZero (derInt s)))) := by
  have h0 : (derSignature r s).get? 0 = some 0x30 := rfl
  have h2 : (derSignature r s).get? 2 = some 0x02 := rfl
  have h3 : (derSignature r s).get? 3 = some (derInt r).length := rfl
  have hr : ((derSignature r s).drop 4).take (derInt r).length =
      derInt r := by
    show (derInt r ++ 0x02 :: (derInt s).length :: derInt s).take
      (derInt r).length = derInt r
    exact List.take_left _ _
  have hstag : (derSignature r s).get? (4 + (derInt r).length) =
      some 0x02 := by
    show (0x30 :: ((derInt r).length + (derInt s).length + 4) :: 0x02 ::
      (derInt r).length ::
      (derInt r ++ 0x02 :: (derInt s).length :: derInt s)).get?
        (4 + (derInt r).length) = some 0x02
    rw [get?_cons4, get?_append_len0]
    rfl
  have hslen : (derSignature r s).get? (4 + (derInt r).length + 1) =
      some (derInt s).length := by
    show (0x30 :: ((derInt r).length + (derInt s).length + 4) :: 0x02 ::
      (derInt r).length ::
      (derInt r ++ 0x02 :: (derInt s).length :: derInt s)).get?
        (4 + (derInt r).length + 1) = some (derInt s).length
    rw [get?_cons4_succ, get?_append_len]
    rfl
  have hs : ((derSignature r s).drop
        (4 + (derInt r).length + 2)).take (derInt s).length = derInt s := by
    show ((0x30 :: ((derInt r).length + (derInt s).length + 4) :: 0x02 ::
      (derInt r).length ::
      (derInt r ++ 0x02 :: (derInt s).length :: derInt s)).drop
        (4 + (derInt r).length + 2)).take (derInt s).length = derInt s
    rw [drop_cons4_2, drop_append_len]
    exact List.take_length _
  unfold parseDerSignature
  simp only [h0, h2, h3, Option.getD_some, hr, hstag, hslen, hs]
  simp

/-- C5: for every DER encoding of an in-range signature pair (r, s) under
either supported curve order, the codec accepts and returns two
exactly-32-byte big-endian components, with `s` replaced by `order − s`
whenever the decoded `s` exceeds half the order, so the returned `s` never
exceeds half the group order. -/
theorem parseDer_roundtrip_canonical :
    ∀ order : Nat, (order = secp256k1Order ∨ order = p256Order) →
    ∀ r s : Nat, 0 < r → r < order → 0 < s → s < order →
    ∃ rb sb : List Nat,
      parseDerSignature order (derSignature r s) = .ok (rb, sb) ∧
      rb.length = 32 ∧ sb.length = 32 ∧ beNat rb = r ∧
      beNat sb = (if order / 2 < s then order - s else s) ∧
      beNat sb ≤ order / 2 := by
  intro order horder r s hr0 hr hs0 hs
  have h32 : order ≤ 256 ^ 32 := by
    rcases horder with h | h <;> rw [h] <;> decide
  have hrx : r < 256 ^ 32 := lt_of_lt_of_le hr h32
  have hsx : s < 256 ^ 32 := lt_of_lt_of_le hs h32
  obtain ⟨hrlen, hrval⟩ := stripPad_derInt r hrx
  obtain ⟨hslen, hsval⟩ := stripPad_derInt s hsx
  have hmod := Nat.div_add_mod order 2
  have hmlt : order % 2 < 2 := Nat.mod_lt _ (by omega)
  rw [parseDer_derSignature order r s, hsval]
  by_cases hc : order / 2 < s
  · rw [if_pos hc]
    have hos : order - s < 256 ^ 32 := by omega
    refine ⟨padTo32 (stripLeadingZero (derInt r)),
      natToBytes32 (order - s), rfl, hrlen, ?_, hrval, ?_, ?_⟩
    · unfold natToBytes32
      exact padTo32_length _ (minimalBytes_length 31 _ hos)
    · unfold natToBytes32
      rw [beNat_padTo32, minimalBytes_spec, if_pos hc]
    · unfold natToBytes32
      rw [beNat_padTo32, minimalBytes_spec]
      omega
  · rw [if_neg hc]
    refine ⟨padTo32 (stripLeadingZero (derInt r)),
      padTo32 (stripLeadingZero (derInt s)), rfl, hrlen, hslen, hrval,
      ?_, ?_⟩
    · rw [hsval, if_neg hc]
    · rw [hsval]
      omega

/-- Witness for C5: the secp256k1 parse of the DER encoding of
(r, s) = (1, 2) yields 32-byte components with the stated values. -/
theorem parseDer_roundtrip_canonical_witness :
    ∃ rb sb : List Nat,
      parseDerSignature secp256k1Order (derSignature 1 2) = .ok (rb, sb) ∧
      rb.length = 32 ∧ sb.length = 32 ∧ beNat rb = 1 ∧
      beNat sb = (if secp256k1Order / 2 < 2 then secp256k1Order - 2
        else 2) ∧
      beNat sb ≤ secp256k1Order / 2 :=
  parseDer_roundtrip_canonical secp256k1Order (Or.inl rfl) 1 2
    (by decide) (by decide) (by decide) (by decide)

/-- C6 (against the claim): on malformed DER the codec does not always
fail. A declared 32-byte `s` integer of which only one byte is present —
a truncated final integer — is accepted: the single byte is zero-filled to
32 bytes and returned instead of a hard error. The wrong-tag cases do
throw, but this input shows the codec returning a zero-filled partial
result. -/
theorem parseDer_truncated_s_zero_filled :
    parseDerSignature secp256k1Order
        [0x30, 0x08, 0x02, 0x01, 0x01, 0x02, 0x20, 0xAB] =
      .ok (List.replicate 31 0 ++ [0x01], List.replicate 31 0 ++ [0xAB]) :=
  rfl

end CryptoPay
